import Mathlib

/-!
Shallow embedding of the tax computation engine of `src/server/services/taxService.ts`
(class `TaxService`), and theorems checking the specification's claims about it.

Modelling conventions:
* JavaScript numbers are modelled as exact rationals (`ℚ`); the decimal literals
  `0.5`, `0.1`, `0.15`, `0.45`, `0.75`, `1.04` of the source are exact in `ℚ`.
* `Math.round` (round half toward positive infinity) is `jsRound x = ⌊x + 0.5⌋`,
  cast back to `ℚ` because the source keeps working with the rounded number.
* `Math.min(x, slab.max)` where `slab.max` may be `Infinity` is `jsMin` over
  `Option ℚ`, with `none` standing for `Infinity` (so `jsMin x none = x`).
* The wall-clock reads (`new Date()`) are injected parameters: the current
  calendar year for `calculateAdvanceTaxSchedule`, and the current year and
  1-based month for `getCurrentFinancialYear` (the source computes
  `getMonth() + 1`).
* `Number.prototype.toString` on the natural numbers the engine prints is the
  decimal representation `jsNumToString`, built from a fuel-driven digit list;
  `String.prototype.slice(-2)` is `jsSliceLastTwo` (drop all but the last two
  characters, or the whole string if it is shorter).
-/

namespace TaxService

/-- Entry of the slab table (`interface TaxSlabs`): `max = none` models `Infinity`. -/
structure TaxSlabs where
  min : ℚ
  max : Option ℚ
  rate : ℚ
deriving DecidableEq

/-- Recommended scheme, the string union `'section44ada' | 'regular'` of the source. -/
inductive RecommendedScheme where
  | section44ada
  | regular
deriving DecidableEq

/-- One advance-tax installment (`interface AdvanceTaxPayment`). -/
structure AdvanceTaxPayment where
  quarter : ℕ
  percentage : ℚ
  amount : ℚ
  dueDate : String
  description : String
deriving DecidableEq

/-- Result record of `calculateTax` (`interface TaxCalculationResult`). -/
structure TaxCalculationResult where
  totalIncome : ℚ
  section44adaIncome : ℚ
  regularTaxableIncome : ℚ
  section44adaTax : ℚ
  regularTax : ℚ
  recommendedScheme : RecommendedScheme
  savings : ℚ
  advanceTaxSchedule : List AdvanceTaxPayment
deriving DecidableEq

/-- JavaScript `Math.round`: nearest integer, ties toward positive infinity. -/
def jsRound (x : ℚ) : ℚ := ((⌊x + 0.5⌋ : ℤ) : ℚ)

/-- JavaScript `Math.min x m` where `m : Option ℚ` models a possibly-`Infinity` bound. -/
def jsMin (x : ℚ) : Option ℚ → ℚ
  | none => x
  | some m => min x m

/-- Decimal digit list of `n`, most significant first; `fuel` bounds the recursion
so that the definition is structural (any `fuel > n` gives the true digits). -/
def decDigitsGo : ℕ → ℕ → List Char
  | 0, _ => []
  | fuel + 1, n =>
    if n < 10 then [Nat.digitChar n]
    else decDigitsGo fuel (n / 10) ++ [Nat.digitChar (n % 10)]

/-- JavaScript `Number.prototype.toString` restricted to naturals: decimal form. -/
def jsNumToString (n : ℕ) : String := String.mk (decDigitsGo (n + 1) n)

/-- JavaScript `String.prototype.slice(-2)`: the last two characters (the whole
string when it has fewer than two). -/
def jsSliceLastTwo (s : String) : String := String.mk (s.data.drop (s.data.length - 2))

/-- The FY 2024-25 slab table `taxSlabs` of the source, in source order. -/
def taxSlabs : List TaxSlabs :=
  [ { min := 0,       max := some 300000,  rate := 0 },
    { min := 300000,  max := some 700000,  rate := 5 },
    { min := 700000,  max := some 1000000, rate := 10 },
    { min := 1000000, max := some 1200000, rate := 15 },
    { min := 1200000, max := some 1500000, rate := 20 },
    { min := 1500000, max := none,         rate := 30 } ]

/-- `standardDeduction` constant of the source. -/
def standardDeduction : ℚ := 50000

/-- `healthInsuranceDeduction` constant of the source. -/
def healthInsuranceDeduction : ℚ := 25000

/-- Body of the slab loop of `calculateIncomeTax`: one `for`-iteration, folding the
accumulator `tax` over one slab. -/
def slabStep (taxableIncome tax : ℚ) (slab : TaxSlabs) : ℚ :=
  if slab.min < taxableIncome then
    tax + (jsMin taxableIncome slab.max - slab.min) * slab.rate / 100
  else tax

/-- `TaxService.calculateIncomeTax`: slab-wise accumulation, then the 4% cess
(`tax * 1.04`), then `Math.round`. -/
def calculateIncomeTax (taxableIncome : ℚ) : ℚ :=
  jsRound (taxSlabs.foldl (slabStep taxableIncome) 0 * 1.04)

/-- `TaxService.calculateAdvanceTaxSchedule`, with the wall-clock year injected as
`currentYear` (the source reads `new Date().getFullYear()`). -/
def calculateAdvanceTaxSchedule (currentYear : ℕ) (annualTax : ℚ) : List AdvanceTaxPayment :=
  let financialYear := currentYear
  [ { quarter := 1, percentage := 15, amount := jsRound (annualTax * 0.15),
      dueDate := jsNumToString financialYear ++ "-06-15",
      description := "Q1 (15% by 15 Jun)" },
    { quarter := 2, percentage := 45, amount := jsRound (annualTax * 0.45),
      dueDate := jsNumToString financialYear ++ "-09-15",
      description := "Q2 (45% by 15 Sep)" },
    { quarter := 3, percentage := 75, amount := jsRound (annualTax * 0.75),
      dueDate := jsNumToString financialYear ++ "-12-15",
      description := "Q3 (75% by 15 Dec)" },
    { quarter := 4, percentage := 100, amount := annualTax,
      dueDate := jsNumToString (financialYear + 1) ++ "-03-15",
      description := "Q4 (100% by 15 Mar)" } ]

/-- `TaxService.calculateTax`, with the wall-clock year of the schedule injected. -/
def calculateTax (currentYear : ℕ) (totalIncome : ℚ)
    (hasHealthInsurance : Bool := false) : TaxCalculationResult :=
  let section44adaIncome := totalIncome * 0.5
  let section44adaTaxableIncome := max 0 (section44adaIncome - standardDeduction)
  let section44adaTax := calculateIncomeTax section44adaTaxableIncome
  let actualExpenses := totalIncome * 0.1
  let regularTaxableIncome := max 0 (totalIncome - actualExpenses - standardDeduction -
    (if hasHealthInsurance then healthInsuranceDeduction else 0))
  let regularTax := calculateIncomeTax regularTaxableIncome
  let recommendedScheme :=
    if section44adaTax ≤ regularTax then RecommendedScheme.section44ada
    else RecommendedScheme.regular
  let finalTax :=
    if recommendedScheme = RecommendedScheme.section44ada then section44adaTax else regularTax
  let savings := |section44adaTax - regularTax|
  let advanceTaxSchedule := calculateAdvanceTaxSchedule currentYear finalTax
  { totalIncome := totalIncome
    section44adaIncome := section44adaIncome
    regularTaxableIncome := regularTaxableIncome
    section44adaTax := section44adaTax
    regularTax := regularTax
    recommendedScheme := recommendedScheme
    savings := savings
    advanceTaxSchedule := advanceTaxSchedule }

/-- `TaxService.calculateGST`. -/
def calculateGST (amount gstRate : ℚ) : ℚ := jsRound (amount * gstRate / 100)

/-- `TaxService.getCurrentFinancialYear`, with the wall-clock date injected as
`year` and the 1-based `month` (the source computes `getMonth() + 1`). -/
def getCurrentFinancialYear (year month : ℕ) : String :=
  if 4 ≤ month then
    jsNumToString year ++ "-" ++ jsSliceLastTwo (jsNumToString (year + 1))
  else
    jsNumToString (year - 1) ++ "-" ++ jsSliceLastTwo (jsNumToString year)

end TaxService

namespace TaxService

/-! ## Helper lemmas -/

/-- Rounding is monotone: `Math.round` preserves `≤`. -/
lemma jsRound_mono {a b : ℚ} (h : a ≤ b) : jsRound a ≤ jsRound b := by
  unfold jsRound
  exact_mod_cast Int.floor_le_floor (by linarith)

/-- Every slab of the configured table has a non-negative rate and a finite upper
bound (when present) at or above its lower bound. -/
lemma taxSlabs_wf : ∀ s ∈ taxSlabs, 0 ≤ s.rate ∧ ∀ v, s.max = some v → s.min ≤ v := by
  intro s hs
  fin_cases hs <;> refine ⟨by norm_num, ?_⟩ <;> rintro v ⟨rfl⟩ <;> norm_num

/-- One iteration of the slab loop is monotone simultaneously in the taxable
income and in the accumulator. -/
lemma slabStep_mono {a b : ℚ} (hab : a ≤ b) (s : TaxSlabs) (hr : 0 ≤ s.rate)
    (hmax : ∀ v, s.max = some v → s.min ≤ v) {t₁ t₂ : ℚ} (ht : t₁ ≤ t₂) :
    slabStep a t₁ s ≤ slabStep b t₂ s := by
  unfold slabStep
  by_cases ha : s.min < a
  · have hb : s.min < b := lt_of_lt_of_le ha hab
    rw [if_pos ha, if_pos hb]
    have h1 : jsMin a s.max ≤ jsMin b s.max := by
      cases hm : s.max with
      | none => simpa [jsMin] using hab
      | some v =>
        simp only [jsMin]
        exact min_le_min hab le_rfl
    have h2 : (jsMin a s.max - s.min) * s.rate ≤ (jsMin b s.max - s.min) * s.rate :=
      mul_le_mul_of_nonneg_right (by linarith) hr
    linarith
  · rw [if_neg ha]
    by_cases hb : s.min < b
    · rw [if_pos hb]
      have hmb : s.min ≤ jsMin b s.max := by
        cases hm : s.max with
        | none => simpa [jsMin] using le_of_lt hb
        | some v =>
          simp only [jsMin]
          exact le_min (le_of_lt hb) (hmax v hm)
      have h0 : 0 ≤ (jsMin b s.max - s.min) * s.rate / 100 :=
        div_nonneg (mul_nonneg (by linarith) hr) (by norm_num)
      linarith
    · rw [if_neg hb]
      exact ht

/-- The slab fold is monotone in the taxable income and the initial accumulator,
for any slab list whose entries are well formed. -/
lemma foldl_slabStep_mono {a b : ℚ} (hab : a ≤ b) :
    ∀ l : List TaxSlabs, (∀ s ∈ l, 0 ≤ s.rate ∧ ∀ v, s.max = some v → s.min ≤ v) →
      ∀ {t₁ t₂ : ℚ}, t₁ ≤ t₂ → l.foldl (slabStep a) t₁ ≤ l.foldl (slabStep b) t₂ := by
  intro l
  induction l with
  | nil =>
    intro _ t₁ t₂ ht
    simpa using ht
  | cons s l ih =>
    intro hwf t₁ t₂ ht
    simp only [List.foldl_cons]
    exact ih (fun x hx => hwf x (List.mem_cons_of_mem _ hx))
      (slabStep_mono hab s (hwf s (List.mem_cons_self _ _)).1 (hwf s (List.mem_cons_self _ _)).2 ht)

/-- Monotonicity of the full progressive tax function (slab fold, cess, rounding). -/
lemma calculateIncomeTax_mono_aux {a b : ℚ} (hab : a ≤ b) :
    calculateIncomeTax a ≤ calculateIncomeTax b := by
  unfold calculateIncomeTax
  apply jsRound_mono
  have h := foldl_slabStep_mono hab taxSlabs taxSlabs_wf (le_refl (0 : ℚ))
  nlinarith

/-- The Section 44ADA taxable income never exceeds the regular-scheme taxable
income, for non-negative total income and any deduction `ins ∈ [0, 25000]`. -/
lemma taxable_le_taxable (I ins : ℚ) (hI : 0 ≤ I) (h0 : 0 ≤ ins) (h25 : ins ≤ 25000) :
    max 0 (I * 0.5 - standardDeduction) ≤ max 0 (I - I * 0.1 - standardDeduction - ins) := by
  unfold standardDeduction
  by_cases hx : I * 0.5 - 50000 ≤ 0
  · calc max 0 (I * 0.5 - 50000) = 0 := max_eq_left hx
    _ ≤ max 0 (I - I * 0.1 - 50000 - ins) := le_max_left _ _
  · push_neg at hx
    have hI1 : 100000 < I := by linarith
    calc max 0 (I * 0.5 - 50000) = I * 0.5 - 50000 := max_eq_right (le_of_lt hx)
    _ ≤ I - I * 0.1 - 50000 - ins := by linarith
    _ ≤ max 0 (I - I * 0.1 - 50000 - ins) := le_max_right _ _

/-- The Section 44ADA tax never exceeds the regular tax, for non-negative income. -/
lemma section44adaTax_le_regularTax (y : ℕ) (I : ℚ) (b : Bool) (hI : 0 ≤ I) :
    (calculateTax y I b).section44adaTax ≤ (calculateTax y I b).regularTax := by
  simp only [calculateTax]
  apply calculateIncomeTax_mono_aux
  apply taxable_le_taxable I _ hI
  · cases b <;> norm_num [healthInsuranceDeduction]
  · cases b <;> norm_num [healthInsuranceDeduction]

/-- Rounding three quarters of a natural number never exceeds the number itself. -/
lemma jsRound_three_quarters_le (n : ℕ) : jsRound ((n : ℚ) * 0.75) ≤ (n : ℚ) := by
  unfold jsRound
  have hn : (0 : ℚ) ≤ (n : ℚ) := Nat.cast_nonneg n
  have h1 : ⌊(n : ℚ) * 0.75 + 0.5⌋ < (n : ℤ) + 1 := by
    rw [Int.floor_lt]
    push_cast
    linarith
  exact_mod_cast Int.lt_add_one_iff.mp h1

/-- The digit list of `n` is never empty when the fuel exceeds `n`. -/
lemma decDigitsGo_length_pos (f n : ℕ) (h : n < f) : 1 ≤ (decDigitsGo f n).length := by
  obtain ⟨g, rfl⟩ : ∃ g, f = g + 1 := ⟨f - 1, by omega⟩
  by_cases h10 : n < 10
  · simp [decDigitsGo, h10]
  · simp [decDigitsGo, h10]

/-- The last digit of the decimal form of `n` is `n % 10`. -/
lemma decDigitsGo_drop_last (f n : ℕ) (h : n < f) :
    (decDigitsGo f n).drop ((decDigitsGo f n).length - 1) = [Nat.digitChar (n % 10)] := by
  obtain ⟨g, rfl⟩ : ∃ g, f = g + 1 := ⟨f - 1, by omega⟩
  by_cases h10 : n < 10
  · simp [decDigitsGo, h10, Nat.mod_eq_of_lt h10]
  · simp only [decDigitsGo, if_neg h10]
    rw [List.length_append, List.length_singleton, Nat.add_sub_cancel, List.drop_left]

/-- The last two digits of the decimal form of `n ≥ 10` are `n / 10 % 10` and `n % 10`. -/
lemma decDigitsGo_drop_lastTwo (f n : ℕ) (h : n < f) (h10 : 10 ≤ n) :
    (decDigitsGo f n).drop ((decDigitsGo f n).length - 2) =
      [Nat.digitChar (n / 10 % 10), Nat.digitChar (n % 10)] := by
  obtain ⟨g, rfl⟩ : ∃ g, f = g + 1 := ⟨f - 1, by omega⟩
  have hn10 : ¬ n < 10 := by omega
  have hdiv : n / 10 < g := by
    have h1 : n / 10 < n := Nat.div_lt_self (by omega) (by norm_num)
    omega
  have hlen : 1 ≤ (decDigitsGo g (n / 10)).length := decDigitsGo_length_pos g (n / 10) hdiv
  simp only [decDigitsGo, if_neg hn10]
  rw [List.length_append, List.length_singleton]
  have h2 : (decDigitsGo g (n / 10)).length + 1 - 2 = (decDigitsGo g (n / 10)).length - 1 := by
    omega
  rw [h2, List.drop_append_of_le_length (by omega), decDigitsGo_drop_last g (n / 10) hdiv]
  simp

/-- Slicing the last two characters of the decimal form of `n ≥ 10` yields the
two-digit zero-padded decimal form of `n % 100`. -/
lemma jsSliceLastTwo_two_digits (n : ℕ) (h10 : 10 ≤ n) :
    jsSliceLastTwo (jsNumToString n) =
      String.mk [Nat.digitChar (n % 100 / 10), Nat.digitChar (n % 100 % 10)] := by
  have e1 : n % 100 / 10 = n / 10 % 10 := by
    have h := Nat.mod_mul_right_div_self n 10 10
    norm_num at h
    exact h
  have e2 : n % 100 % 10 = n % 10 := Nat.mod_mod_of_dvd n (by norm_num)
  unfold jsSliceLastTwo jsNumToString
  rw [show (String.mk (decDigitsGo (n + 1) n)).data = decDigitsGo (n + 1) n from rfl,
    decDigitsGo_drop_lastTwo (n + 1) n (by omega) h10, e1, e2]

end TaxService

namespace TaxService

/-! ## Claim theorems -/

/-- Claim C1 (counterexample): on input totalIncome = 1000000, hasHealthInsurance =
false, the code computes section44adaTax = 7800, not 5200 as the claim states: the
44ADA taxable income is 450000, so the 5% slab contributes (450000 - 300000) * 0.05
= 7500 (not 5000), and 7500 * 1.04 = 7800. -/
theorem claim1_counterexample :
    (calculateTax 2024 1000000 false).section44adaTax = 7800 ∧ (7800 : ℚ) ≠ 5200 := by
  constructor
  · norm_num [calculateTax, calculateIncomeTax, taxSlabs, slabStep, jsMin, jsRound,
      standardDeduction, healthInsuranceDeduction]
  · norm_num

/-- Claim C1 (amended): calculateTax(1000000, false) returns section44adaIncome =
500000 with 44ADA taxable income 450000, section44adaTax = 7800 (slab tax 7500 =
(450000 - 300000) * 0.05, times 1.04), regularTaxableIncome = 850000, regularTax =
36400 (slab tax 35000, times 1.04), recommendedScheme = section44ada, and
savings = 28600, for any injected current year. -/
theorem claim1_amended_calculateTax_1000000 (y : ℕ) :
    (calculateTax y 1000000 false).section44adaIncome = 500000 ∧
    max 0 ((calculateTax y 1000000 false).section44adaIncome - standardDeduction) = 450000 ∧
    (calculateTax y 1000000 false).section44adaTax = 7800 ∧
    (calculateTax y 1000000 false).regularTaxableIncome = 850000 ∧
    (calculateTax y 1000000 false).regularTax = 36400 ∧
    (calculateTax y 1000000 false).recommendedScheme = RecommendedScheme.section44ada ∧
    (calculateTax y 1000000 false).savings = 28600 := by
  refine ⟨?_, ?_, ?_, ?_, ?_, ?_, ?_⟩ <;>
    norm_num [calculateTax, calculateIncomeTax, taxSlabs, slabStep, jsMin, jsRound,
      standardDeduction, healthInsuranceDeduction]

/-- Claim C2 (confirmed): for every totalIncome ≥ 0 and either value of
hasHealthInsurance, the Section 44ADA tax never exceeds the regular tax, so
calculateTax always recommends section44ada; the regular branch of the
recommendation is unreachable on the documented (non-negative) input domain. -/
theorem claim2_section44ada_always_recommended (y : ℕ) (I : ℚ) (b : Bool) (hI : 0 ≤ I) :
    (calculateTax y I b).section44adaTax ≤ (calculateTax y I b).regularTax ∧
    (calculateTax y I b).recommendedScheme = RecommendedScheme.section44ada := by
  have h := section44adaTax_le_regularTax y I b hI
  refine ⟨h, ?_⟩
  simp only [calculateTax] at h ⊢
  rw [if_pos h]

/-- Claim C2 witness: instantiation at totalIncome = 1000000 with health insurance. -/
theorem claim2_witness :
    (0 : ℚ) ≤ 1000000 ∧
    ((calculateTax 2024 1000000 true).section44adaTax ≤ (calculateTax 2024 1000000 true).regularTax ∧
      (calculateTax 2024 1000000 true).recommendedScheme = RecommendedScheme.section44ada) :=
  ⟨by norm_num, claim2_section44ada_always_recommended 2024 1000000 true (by norm_num)⟩

/-- Claim C3 (confirmed): for every totalIncome and hasHealthInsurance the result
satisfies the recommendation rule (section44ada exactly when section44adaTax ≤
regularTax, so ties favor section44ada) and savings = |section44adaTax -
regularTax| ≥ 0. -/
theorem claim3_recommendation_rule (y : ℕ) (I : ℚ) (b : Bool) :
    (calculateTax y I b).recommendedScheme =
      (if (calculateTax y I b).section44adaTax ≤ (calculateTax y I b).regularTax then
        RecommendedScheme.section44ada else RecommendedScheme.regular) ∧
    (calculateTax y I b).savings =
      |(calculateTax y I b).section44adaTax - (calculateTax y I b).regularTax| ∧
    0 ≤ (calculateTax y I b).savings := by
  refine ⟨?_, ?_, ?_⟩
  · simp only [calculateTax]
  · simp only [calculateTax]
  · simp only [calculateTax]
    exact abs_nonneg _

/-- Claim C4 (confirmed): the progressive income tax function is monotonically
non-decreasing: 0 ≤ a ≤ b implies calculateIncomeTax a ≤ calculateIncomeTax b. -/
theorem claim4_calculateIncomeTax_mono (a b : ℚ) (ha : 0 ≤ a) (hab : a ≤ b) :
    calculateIncomeTax a ≤ calculateIncomeTax b :=
  calculateIncomeTax_mono_aux hab

/-- Claim C4 witness: instantiation at the slab boundaries 300000 and 700000. -/
theorem claim4_witness :
    (0 : ℚ) ≤ 300000 ∧ (300000 : ℚ) ≤ 700000 ∧
    calculateIncomeTax 300000 ≤ calculateIncomeTax 700000 :=
  ⟨by norm_num, by norm_num,
    claim4_calculateIncomeTax_mono 300000 700000 (by norm_num) (by norm_num)⟩

/-- Claim C5 (counterexample): the non-decreasing invariant fails for the
non-negative fractional annual tax 0.7: the schedule's amounts are
[0, 0, 1, 0.7], and the quarter-3 amount 1 exceeds the quarter-4 amount 0.7. -/
theorem claim5_counterexample :
    (0 : ℚ) ≤ 7 / 10 ∧
    (calculateAdvanceTaxSchedule 2024 (7 / 10)).map (fun p => p.amount) = [0, 0, 1, 7 / 10] ∧
    ¬ List.Chain' (· ≤ ·)
      ((calculateAdvanceTaxSchedule 2024 (7 / 10)).map (fun p => p.amount)) := by
  refine ⟨by norm_num, ?_, ?_⟩
  · norm_num [calculateAdvanceTaxSchedule, jsRound]
  · have h : (calculateAdvanceTaxSchedule 2024 (7 / 10)).map (fun p => p.amount) =
        [0, 0, 1, 7 / 10] := by
      norm_num [calculateAdvanceTaxSchedule, jsRound]
    rw [h]
    simp only [List.chain'_cons, List.chain'_singleton, and_true]
    norm_num

/-- Claim C5 (amended): for every non-negative integer annual tax amount (the
scheduler is always invoked by calculateTax on the integer output of the rounding
tax function), the schedule has exactly four payments, quarters 1 to 4, cumulative
percentages 15, 45, 75, 100, non-decreasing amounts, and the quarter-4 amount is
the full annual tax exactly; for annual tax 36400 the amounts are 5460, 16380,
27300, 36400. -/
theorem claim5_amended_schedule (y n : ℕ) :
    (calculateAdvanceTaxSchedule y (n : ℚ)).length = 4 ∧
    ((calculateAdvanceTaxSchedule y (n : ℚ)).map (fun p => p.quarter) = [1, 2, 3, 4]) ∧
    ((calculateAdvanceTaxSchedule y (n : ℚ)).map (fun p => p.percentage) = [15, 45, 75, 100]) ∧
    List.Chain' (· ≤ ·) ((calculateAdvanceTaxSchedule y (n : ℚ)).map (fun p => p.amount)) ∧
    ((calculateAdvanceTaxSchedule y (n : ℚ)).map (fun p => p.amount)).getLast? = some (n : ℚ) ∧
    ((calculateAdvanceTaxSchedule y 36400).map (fun p => p.amount) =
      [5460, 16380, 27300, 36400]) := by
  have hn : (0 : ℚ) ≤ (n : ℚ) := Nat.cast_nonneg n
  refine ⟨?_, ?_, ?_, ?_, ?_, ?_⟩
  · simp [calculateAdvanceTaxSchedule]
  · simp [calculateAdvanceTaxSchedule]
  · simp [calculateAdvanceTaxSchedule]
  · simp only [calculateAdvanceTaxSchedule, List.map_cons, List.map_nil, List.chain'_cons,
      List.chain'_singleton, and_true]
    exact ⟨jsRound_mono (by nlinarith), jsRound_mono (by nlinarith),
      jsRound_three_quarters_le n⟩
  · simp [calculateAdvanceTaxSchedule]
  · norm_num [calculateAdvanceTaxSchedule, jsRound]

/-- Claim C6 (confirmed): slab boundary exactness: calculateIncomeTax 300000 = 0
and calculateIncomeTax 700000 = (400000 * 0.05) * 1.04 = 20800. -/
theorem claim6_slab_boundaries :
    calculateIncomeTax 300000 = 0 ∧ calculateIncomeTax 700000 = 20800 := by
  constructor <;> norm_num [calculateIncomeTax, taxSlabs, slabStep, jsMin, jsRound]

/-- Claim C7 (confirmed): calculateTax 0 (with the default hasHealthInsurance =
false) returns section44adaTax = 0, regularTax = 0, recommendedScheme =
section44ada, and savings = 0, for any injected current year. -/
theorem claim7_calculateTax_zero (y : ℕ) :
    (calculateTax y 0).section44adaTax = 0 ∧
    (calculateTax y 0).regularTax = 0 ∧
    (calculateTax y 0).recommendedScheme = RecommendedScheme.section44ada ∧
    (calculateTax y 0).savings = 0 := by
  refine ⟨?_, ?_, ?_, ?_⟩ <;>
    norm_num [calculateTax, calculateIncomeTax, taxSlabs, slabStep, jsMin, jsRound,
      standardDeduction, healthInsuranceDeduction]

/-- Claim C8 (confirmed): the embedded calculateTax is a total function returning a
TaxCalculationResult for every rational input; for negative totalIncome both
taxable incomes clamp to 0 through max(0, _), so the computation completes with
zero taxes, recommendedScheme = section44ada and savings = 0. -/
theorem claim8_negative_income_clamps (y : ℕ) (I : ℚ) (b : Bool) (hI : I < 0) :
    (calculateTax y I b).regularTaxableIncome = 0 ∧
    max 0 ((calculateTax y I b).section44adaIncome - standardDeduction) = 0 ∧
    (calculateTax y I b).section44adaTax = 0 ∧
    (calculateTax y I b).regularTax = 0 ∧
    (calculateTax y I b).recommendedScheme = RecommendedScheme.section44ada ∧
    (calculateTax y I b).savings = 0 := by
  have h44 : max 0 (I * 0.5 - standardDeduction) = 0 := by
    apply max_eq_left
    unfold standardDeduction
    linarith
  have hins : (0 : ℚ) ≤ (if b then healthInsuranceDeduction else 0) := by
    cases b <;> norm_num [healthInsuranceDeduction]
  have hreg :
      max 0 (I - I * 0.1 - standardDeduction - (if b then healthInsuranceDeduction else 0)) = 0 := by
    apply max_eq_left
    unfold standardDeduction
    linarith
  have h0 : calculateIncomeTax 0 = 0 := by
    norm_num [calculateIncomeTax, taxSlabs, slabStep, jsMin, jsRound]
  simp only [calculateTax, h44, hreg, h0]
  norm_num

/-- Claim C8 witness: instantiation at totalIncome = -1000. -/
theorem claim8_witness :
    (-1000 : ℚ) < 0 ∧
    ((calculateTax 2024 (-1000) false).regularTaxableIncome = 0 ∧
      max 0 ((calculateTax 2024 (-1000) false).section44adaIncome - standardDeduction) = 0 ∧
      (calculateTax 2024 (-1000) false).section44adaTax = 0 ∧
      (calculateTax 2024 (-1000) false).regularTax = 0 ∧
      (calculateTax 2024 (-1000) false).recommendedScheme = RecommendedScheme.section44ada ∧
      (calculateTax 2024 (-1000) false).savings = 0) :=
  ⟨by norm_num, claim8_negative_income_clamps 2024 (-1000) false (by norm_num)⟩

/-- Claim C9 (counterexample): evaluated with injected year 2008 and month 6 (June,
so month ≥ April), the code returns "2008-09" — the last two characters of
"2009" — and not the claimed "{2008}-{2009 mod 100}" = "2008-9": the slice keeps
a leading zero that plain decimal rendering of 2009 mod 100 = 9 does not have. -/
theorem claim9_counterexample :
    getCurrentFinancialYear 2008 6 ≠
      jsNumToString 2008 ++ "-" ++ jsNumToString ((2008 + 1) % 100) := by
  decide

/-- Claim C9 (amended): with the current date injected, for every year Y ≥ 9 and
month ≥ April the function returns "{Y}-{dd}" where dd is the TWO-DIGIT
zero-padded decimal form of (Y+1) mod 100, and in January to March (for Y ≥ 10)
it returns "{Y-1}-{dd}" with dd the two-digit zero-padded form of Y mod 100. -/
theorem claim9_amended_financial_year (year month : ℕ) (h9 : 9 ≤ year) :
    (4 ≤ month → getCurrentFinancialYear year month =
      jsNumToString year ++ "-" ++
        String.mk [Nat.digitChar ((year + 1) % 100 / 10),
          Nat.digitChar ((year + 1) % 100 % 10)]) ∧
    (month < 4 → 10 ≤ year → getCurrentFinancialYear year month =
      jsNumToString (year - 1) ++ "-" ++
        String.mk [Nat.digitChar (year % 100 / 10), Nat.digitChar (year % 100 % 10)]) := by
  constructor
  · intro h4
    rw [getCurrentFinancialYear, if_pos h4, jsSliceLastTwo_two_digits (year + 1) (by omega)]
  · intro h4 h10
    rw [getCurrentFinancialYear, if_neg (by omega), jsSliceLastTwo_two_digits year h10]

/-- Claim C9 witness: at year 2008 the April-or-later branch gives "2008-09" and
the January-to-March branch gives "2007-08". -/
theorem claim9_witness :
    getCurrentFinancialYear 2008 6 = "2008-09" ∧ getCurrentFinancialYear 2008 2 = "2007-08" := by
  constructor
  · have h := (claim9_amended_financial_year 2008 6 (by norm_num)).1 (by norm_num)
    rw [h]
    decide
  · have h := (claim9_amended_financial_year 2008 2 (by norm_num)).2 (by norm_num) (by norm_num)
    rw [h]
    decide

/-- Claim C10 (confirmed): calculateGST amount rate is round(amount * rate / 100)
with no validation of rate bounds, and calculateGST 25000 18 = 4500. -/
theorem claim10_calculateGST :
    (∀ amount gstRate : ℚ, calculateGST amount gstRate = jsRound (amount * gstRate / 100)) ∧
    calculateGST 25000 18 = 4500 := by
  refine ⟨fun amount gstRate => rfl, ?_⟩
  norm_num [calculateGST, jsRound]

end TaxService
